import Mathlib

/-!
# Verification of the goseq master-server query client (`master.go`)

A shallow embedding of the master-server discovery client of the goseq
package (`master.go`): the request encoder `makerequest`, the response
decoder `wireMasterResponse.Decode`, and the failover loop of
`master.Query`.

Modelling decisions, in correspondence with the Go source:

* Bytes are `Nat` values below 256; byte buffers are `List Nat`.
* `master.try` runs a network exchange raced against a timer via two
  goroutines and a `select`; exactly one of {timeout, non-timeout error,
  success with the bytes read} is observed per call.  That single
  observable outcome per attempt is modelled by `TryOutcome`, and a run
  of `Query` is parametrised by the list of outcomes its successive
  `try` calls observe (the network is the only source of
  nondeterminism).  The connection-handle fields `remoteAddr` and
  `remoteConn` live inside this abstraction (they are created and torn
  down around `try`) and are not part of the modelled client state.
* The Go sentinel error `err_timeout` is compared by identity
  (`e == err_timeout`); errors are therefore a sum type `GoErr` with a
  dedicated `timeout` constructor.
* `Query` returns the Go pair `([]Server, error)`; a `nil` slice is
  `Option.none` and a `nil` error is `Option.none` in the modelled
  result pair, so that "returns nil alongside the error" is visible.
-/

set_option autoImplicit false

namespace Goseq

/-- `masterRespHeaderLength int = 6` from the source. -/
def masterRespHeaderLength : Nat := 6

/-- `MasterSourceServers`: the failover pool of directory servers. -/
def MasterSourceServers : List String :=
  ["68.177.101.62:27011",
   "69.28.158.131:27011",
   "208.64.200.117:27011",
   "208.64.200.118:27011"]

/-- `masterResponseHeader`: the expected 6-byte response magic
`FF FF FF FF 66 0A` (consumed, but never validated, by `Decode`). -/
def masterResponseHeader : List Nat := [0xFF, 0xFF, 0xFF, 0xFF, 0x66, 0x0A]

/-- The errors the client can surface, as a sum type.  `timeout` stands
for the unique sentinel `err_timeout`; `netErr` for any non-timeout
error coming out of `refreshConnection` / `Write` / `Read` inside
`try`; `readErr` for a `binary.Read` failure inside `Decode`. -/
inductive GoErr where
  | timeout
  | netErr (msg : String)
  | readErr (msg : String)
deriving DecidableEq

/-- The observable outcome of one `master.try` call: the `select` either
sees the timer fire (`timeout`), or the exchange goroutine deliver a
non-timeout error (`err`), or the exchange succeed with the bytes read
(`ok`). -/
inductive TryOutcome where
  | timeout
  | err (msg : String)
  | ok (resp : List Nat)
deriving DecidableEq

/-- The client state of `struct master` that survives outside a `try`
call: `filter` (modelled as the opaque token bytes its
`GetFilterFormat()` yields), `addr`, `master_index` and `region`
(a byte, carried as `Nat`).  The lazily-built connection handle
(`remoteAddr` / `remoteConn`) is abstracted into `try`, see the module
docstring. -/
structure Master where
  filter : List Nat
  addr : String
  master_index : Nat
  region : Nat
deriving DecidableEq

/-- `SetAddr` stores the new target (and drops the cached resolution,
which lives inside the `try` abstraction).  `master_index` is untouched. -/
def Master.SetAddr (m : Master) (i : String) : Master :=
  { m with addr := i }

/-- `SetRegion`. -/
def Master.SetRegion (m : Master) (i : Nat) : Master :=
  { m with region := i }

/-- `SetFilter` (the filter is its opaque token bytes). -/
def Master.SetFilter (m : Master) (f : List Nat) : Master :=
  { m with filter := f }

/-- UTF-8 encoding of one character, as `bytes.Buffer.WriteString`
produces it byte by byte. -/
def charBytes (c : Char) : List Nat :=
  let n := c.toNat
  if n < 0x80 then [n]
  else if n < 0x800 then
    [0xC0 + n / 64, 0x80 + n % 64]
  else if n < 0x10000 then
    [0xE0 + n / 4096, 0x80 + n / 64 % 64, 0x80 + n % 64]
  else
    [0xF0 + n / 262144, 0x80 + n / 4096 % 64, 0x80 + n / 64 % 64, 0x80 + n % 64]

/-- The bytes `WriteString s` appends to the packet buffer. -/
def strBytes (s : String) : List Nat :=
  (s.toList.map charBytes).flatten

/-- `master.makerequest`: `0x31`, then `byte(m.region)`, then the bytes
of the starting-address string, then a `0x00` terminator, then the
filter token bytes verbatim. -/
def makerequest (m : Master) (ip : String) : List Nat :=
  [0x31] ++ [m.region % 256] ++ strBytes ip ++ [0x00] ++ m.filter

/-- `wireIP`: four address octets and a port that the source comment
marks as NETWORK BYTE ORDERED. -/
structure WireIP where
  o1 : Nat
  o2 : Nat
  o3 : Nat
  o4 : Nat
  port : Nat
deriving DecidableEq

/-- `wireIP.String`: `fmt.Sprintf("%d.%d.%d.%d:%d", ...)` prints the
port field exactly as stored. -/
def wireIPString (p : WireIP) : String :=
  toString p.o1 ++ "." ++ toString p.o2 ++ "." ++ toString p.o3 ++ "."
    ++ toString p.o4 ++ ":" ++ toString p.port

/-- `wireMasterResponse`: the 6 magic bytes read from the head, and the
decoded address records. -/
structure WireMasterResponse where
  magic : List Nat
  ips : List WireIP
deriving DecidableEq

/-- `wireMasterResponse.Decode`: a single `binary.Read` of the 6-byte
head struct, then `return nil`.  `binary.Read` (via `io.ReadFull`)
fails with `io.EOF` on an empty reader and `io.ErrUnexpectedEOF` on a
short one; on 6 or more bytes it consumes the first 6 and succeeds.
Nothing after the header is ever read, so `ips` stays empty. -/
def wireDecode (buf : List Nat) : Except GoErr WireMasterResponse :=
  if buf.length = 0 then .error (.readErr "EOF")
  else if buf.length < masterRespHeaderLength then .error (.readErr "unexpected EOF")
  else .ok ⟨buf.take masterRespHeaderLength, []⟩

/-- The failover loop of `master.Query`, one iteration per `try` call.
`start` is `start_indice`, `m`/`fav` the client state and the
process-wide `favored_server`, and the list holds the outcome each
successive `try` observes.  Returns the final client state, the final
`favored_server`, the trace of `master_index` values at which `try` was
called, and the loop's verdict (an error, or the response bytes of the
successful attempt).  `none` is a model artifact only: the outcome list
ran out before the loop returned (the loop returns after at most
`MasterSourceServers.length` iterations, so any list at least that long
is never exhausted). -/
def queryLoop (start : Nat) :
    Master → Nat → List TryOutcome →
    Option (Master × Nat × List Nat × Except GoErr (List Nat))
  | _, _, [] => none
  | m, fav, o :: rest =>
    match o with
    | .ok resp => some (m, fav, [m.master_index], .ok resp)
    | .err msg => some (m, fav, [m.master_index], .error (.netErr msg))
    | .timeout =>
      let mi := (m.master_index + 1) % MasterSourceServers.length
      let m1 : Master := { m with master_index := mi,
                                  addr := MasterSourceServers.getD mi "" }
      if mi = start then
        some (m1, fav, [m.master_index], .error .timeout)
      else
        match queryLoop start m1 mi rest with
        | none => none
        | some (m2, fav2, tr, res) => some (m2, fav2, m.master_index :: tr, res)

/-- The outcome of one `master.Query` call: final client state, final
`favored_server`, the indices at which attempts were made, and the Go
return pair `([]Server, error)` with the servers rendered as their
address strings (`nil` slice / `nil` error are `none`). -/
structure QueryRun where
  m : Master
  favored : Nat
  trace : List Nat
  result : Option (List String) × Option GoErr
deriving DecidableEq

/-- `master.Query`: build the request once (`makerequest m0 startIP`,
whose transmission lives inside the `try` abstraction), loop `try` with
timeout failover, then decode the successful response and map each
decoded record through `ip.String()` (via `iserver`).  Every error path
returns the pair `(nil, err)`. -/
def masterQuery (m0 : Master) (fav0 : Nat) (startIP : String)
    (outcomes : List TryOutcome) : Option QueryRun :=
  let _reqpacket := makerequest m0 startIP
  match queryLoop m0.master_index m0 fav0 outcomes with
  | none => none
  | some (m1, fav1, tr, .error e) => some ⟨m1, fav1, tr, (none, some e)⟩
  | some (m1, fav1, tr, .ok resp) =>
    match wireDecode resp with
    | .error e => some ⟨m1, fav1, tr, (none, some e)⟩
    | .ok r => some ⟨m1, fav1, tr, (some (r.ips.map wireIPString), none)⟩

/-! ## Claim theorems -/

/-- Claim C4: for every region byte `r`, starting-address string `s`
and filter token bytes `f`, the encoded request is exactly `0x31`, then
`r`, then the bytes of `s`, then a single `0x00` terminator, then `f`
verbatim. -/
theorem c4_makerequest_layout (m : Master) (ip : String)
    (h : m.region < 256) :
    makerequest m ip =
      0x31 :: m.region :: (strBytes ip ++ 0x00 :: m.filter) := by
  simp [makerequest, Nat.mod_eq_of_lt h]

/-- Claim C4, witness: region `0x01` (USWest) with start address
`"0.0.0.0:0"` and an empty filter token encodes to
`0x31 0x01 "0.0.0.0:0" 0x00` (the ASCII codes of the address between
the marker bytes). -/
theorem c4_makerequest_layout_witness :
    makerequest ⟨[], "208.64.200.117:27011", 2, 0x01⟩ "0.0.0.0:0" =
      [0x31, 0x01, 48, 46, 48, 46, 48, 46, 48, 58, 48, 0x00] := by
  rw [c4_makerequest_layout ⟨[], "208.64.200.117:27011", 2, 0x01⟩
    "0.0.0.0:0" (by decide)]
  decide

/-- Claim C7: a response consisting of exactly the 6-byte header
decodes without error to zero addresses, and `Query` on such a response
returns an empty (but non-nil) address list together with a nil error,
leaving the client state untouched. -/
theorem c7_header_only_empty_success (m0 : Master) (fav0 : Nat)
    (startIP : String) (rest : List TryOutcome) :
    wireDecode masterResponseHeader =
      Except.ok ⟨masterResponseHeader, []⟩ ∧
    masterQuery m0 fav0 startIP (TryOutcome.ok masterResponseHeader :: rest) =
      some ⟨m0, fav0, [m0.master_index], (some [], none)⟩ :=
  ⟨rfl, rfl⟩

/-- Claim C1, code evaluation at the failing input: a response holding
the header plus one complete 6-byte record (`192.168.1.1`, port bytes
`0x69 0x85`, i.e. 27013 in network order) decodes with `ips` left
empty, so `Query` yields zero address strings where the claim demands
exactly one (`"192.168.1.1:27013"`).  `Decode` never reads past the
header. -/
theorem c1_code_yields_no_records :
    wireDecode (masterResponseHeader ++ [192, 168, 1, 1, 0x69, 0x85]) =
      Except.ok ⟨masterResponseHeader, []⟩ ∧
    (masterQuery ⟨[], "208.64.200.117:27011", 2, 1⟩ 2 "0.0.0.0:0"
        [TryOutcome.ok (masterResponseHeader ++ [192, 168, 1, 1, 0x69, 0x85])]).map
      (fun r => r.result) = some (some [], none) :=
  ⟨rfl, by decide⟩

/-- Claim C3, code evaluation at the failing input: a response whose
length past the header is not a multiple of the record size (here the
header plus a single stray byte `0xC0`) decodes WITHOUT error — the
code returns `nil` and an empty `ips` for any buffer of at least 6
bytes, where the claim demands a malformed-response error. -/
theorem c3_code_accepts_partial_record :
    wireDecode (masterResponseHeader ++ [0xC0]) =
      Except.ok ⟨masterResponseHeader, []⟩ ∧
    (masterQuery ⟨[], "208.64.200.117:27011", 2, 1⟩ 2 "0.0.0.0:0"
        [TryOutcome.ok (masterResponseHeader ++ [0xC0])]).map
      (fun r => r.result) = some (some [], none) :=
  ⟨rfl, by decide⟩

/-- Claim C2: with the 4-entry pool and every attempt timing out,
`Query` makes exactly 4 attempts, one per pool entry in pool order
starting from the client's current index, never repeats an index, and
returns the timeout error (with a nil address list). -/
theorem c2_exhausted_failover_four_attempts (m0 : Master) (fav0 : Nat)
    (startIP : String) (rest : List TryOutcome)
    (h : m0.master_index < MasterSourceServers.length) :
    masterQuery m0 fav0 startIP
        (List.replicate 4 TryOutcome.timeout ++ rest) =
      some ⟨{ m0 with addr := MasterSourceServers.getD m0.master_index "" },
            (m0.master_index + 3) % 4,
            [m0.master_index, (m0.master_index + 1) % 4,
             (m0.master_index + 2) % 4, (m0.master_index + 3) % 4],
            (none, some GoErr.timeout)⟩ ∧
    [m0.master_index, (m0.master_index + 1) % 4,
     (m0.master_index + 2) % 4, (m0.master_index + 3) % 4].Nodup := by
  obtain ⟨f, a, i, r⟩ := m0
  replace h : i < 4 := h
  interval_cases i <;>
    exact ⟨by simp [masterQuery, queryLoop, MasterSourceServers, List.replicate],
           by simp⟩

/-- Claim C2, witness: starting at pool index 2, four timeouts visit
indices 2, 3, 0, 1 — four distinct attempts — and `Query` returns the
timeout error. -/
theorem c2_exhausted_failover_four_attempts_witness :
    masterQuery ⟨[], "208.64.200.117:27011", 2, 1⟩ 2 "0.0.0.0:0"
        (List.replicate 4 TryOutcome.timeout ++ []) =
      some ⟨⟨[], "208.64.200.117:27011", 2, 1⟩, 1, [2, 3, 0, 1],
            (none, some GoErr.timeout)⟩ ∧
    ([2, 3, 0, 1] : List Nat).Nodup :=
  c2_exhausted_failover_four_attempts ⟨[], "208.64.200.117:27011", 2, 1⟩
    2 "0.0.0.0:0" [] (by decide)

/-- Claim C5, counterexample: starting at pool index 2 with every
attempt timing out, the final timeout-driven advance wraps
`master_index` back to 2, but `Query` returns before persisting it, so
the shared preferred index is left at 1 — the claim's "persistence
happens on every timeout-driven advance" fails on the wrapping
advance. -/
theorem c5_persist_counterexample :
    (masterQuery ⟨[], "208.64.200.117:27011", 2, 1⟩ 2 "0.0.0.0:0"
        (List.replicate 4 TryOutcome.timeout)).map
      (fun r => (r.favored, r.m.master_index)) = some (1, 2) ∧
    (1 : Nat) ≠ 2 := by
  exact ⟨by decide, by decide⟩

/-- Claim C5 as amended: every timeout-driven advance persists the new
index as the shared preferred index, EXCEPT the advance that wraps back
to the starting index, where `Query` returns the timeout error without
persisting.  Concretely: a single (non-wrapping) timeout followed by a
success leaves the preferred index at the advanced position, while full
exhaustion leaves it at the last pre-wrap position
`(start + 3) % 4`, not at the wrapped-to starting index. -/
theorem c5_amended_persist_except_final_wrap (m0 : Master) (fav0 : Nat)
    (startIP : String) (rest : List TryOutcome)
    (h : m0.master_index < MasterSourceServers.length) :
    (masterQuery m0 fav0 startIP
        (TryOutcome.timeout :: TryOutcome.ok masterResponseHeader :: rest)).map
      (fun r => r.favored) = some ((m0.master_index + 1) % 4) ∧
    (masterQuery m0 fav0 startIP
        (List.replicate 4 TryOutcome.timeout ++ rest)).map
      (fun r => (r.favored, r.m.master_index)) =
      some ((m0.master_index + 3) % 4, m0.master_index) := by
  obtain ⟨f, a, i, r⟩ := m0
  replace h : i < 4 := h
  interval_cases i <;>
    exact ⟨by simp [masterQuery, queryLoop, wireDecode, masterResponseHeader,
                    masterRespHeaderLength, MasterSourceServers],
           by simp [masterQuery, queryLoop, MasterSourceServers, List.replicate]⟩

/-- Claim C5 amended, witness: from pool index 2, one timeout then a
success persists preferred index 3; four timeouts leave it at 1 while
`master_index` has wrapped to 2. -/
theorem c5_amended_persist_except_final_wrap_witness :
    (masterQuery ⟨[], "208.64.200.117:27011", 2, 1⟩ 2 "0.0.0.0:0"
        (TryOutcome.timeout :: TryOutcome.ok masterResponseHeader :: [])).map
      (fun r => r.favored) = some 3 ∧
    (masterQuery ⟨[], "208.64.200.117:27011", 2, 1⟩ 2 "0.0.0.0:0"
        (List.replicate 4 TryOutcome.timeout ++ [])).map
      (fun r => (r.favored, r.m.master_index)) = some (1, 2) :=
  c5_amended_persist_except_final_wrap ⟨[], "208.64.200.117:27011", 2, 1⟩
    2 "0.0.0.0:0" [] (by decide)

/-- Claim C9, counterexample: a client whose target address was set (via
`SetAddr`) to a value that is not the pool entry at its current index
does NOT get its address field restored by an exhausted-failover
timeout: starting from `addr = "203.0.113.9:27011"`, index 0, four
timeouts end with `addr = "68.177.101.62:27011"` (the pool entry at
index 0), different from the value at the start of the call. -/
theorem c9_addr_restore_counterexample :
    (masterQuery (Master.SetAddr ⟨[], "68.177.101.62:27011", 0, 1⟩
          "203.0.113.9:27011") 2 "0.0.0.0:0"
        (List.replicate 4 TryOutcome.timeout)).map
      (fun r => r.m.addr) = some "68.177.101.62:27011" ∧
    "68.177.101.62:27011" ≠ "203.0.113.9:27011" := by
  exact ⟨by decide, by decide⟩

/-- Claim C9 as amended: when `Query` returns the timeout error after
exhausting the pool, `master_index` has wrapped back to its starting
value and `addr` is the POOL ENTRY at that index — hence both fields
are restored to their starting values exactly when the starting address
was that pool entry (as with a freshly constructed client), but a
custom address set via `SetAddr` is not restored. -/
theorem c9_amended_index_restored_addr_pool_entry (m0 : Master)
    (fav0 : Nat) (startIP : String) (rest : List TryOutcome)
    (h : m0.master_index < MasterSourceServers.length) :
    (masterQuery m0 fav0 startIP
        (List.replicate 4 TryOutcome.timeout ++ rest)).map
      (fun r => (r.m.master_index, r.m.addr, r.result)) =
      some (m0.master_index, MasterSourceServers.getD m0.master_index "",
            (none, some GoErr.timeout)) := by
  obtain ⟨f, a, i, r⟩ := m0
  replace h : i < 4 := h
  interval_cases i <;>
    simp [masterQuery, queryLoop, MasterSourceServers, List.replicate]

/-- Claim C9 amended, witness: from pool index 1, exhausted failover
returns with `master_index = 1` and `addr` the pool entry
`"69.28.158.131:27011"`, alongside the timeout error. -/
theorem c9_amended_index_restored_addr_pool_entry_witness :
    (masterQuery ⟨[], "69.28.158.131:27011", 1, 1⟩ 0 "0.0.0.0:0"
        (List.replicate 4 TryOutcome.timeout ++ [])).map
      (fun r => (r.m.master_index, r.m.addr, r.result)) =
      some (1, "69.28.158.131:27011", (none, some GoErr.timeout)) :=
  c9_amended_index_restored_addr_pool_entry ⟨[], "69.28.158.131:27011", 1, 1⟩
    0 "0.0.0.0:0" [] (by decide)

/-- Claim C6: a non-timeout error from a transaction attempt (after any
number `k < 4` of timeout failovers) is returned immediately: the
result is that error with a nil list, exactly `k + 1` attempts were
made regardless of what later outcomes would have been, and the pool
index still points at the entry of the failing attempt (no advance on a
non-timeout error). -/
theorem c6_nontimeout_error_immediate (m0 : Master) (fav0 : Nat)
    (startIP : String) (msg : String) (k : Nat) (rest : List TryOutcome)
    (hi : m0.master_index < MasterSourceServers.length) (hk : k < 4) :
    (masterQuery m0 fav0 startIP
        (List.replicate k TryOutcome.timeout ++ TryOutcome.err msg :: rest)).map
      (fun r => (r.result, r.trace.length, r.m.master_index)) =
      some ((none, some (GoErr.netErr msg)), k + 1,
            (m0.master_index + k) % 4) := by
  obtain ⟨f, a, i, r⟩ := m0
  replace hi : i < 4 := hi
  interval_cases i <;> interval_cases k <;>
    simp [masterQuery, queryLoop, MasterSourceServers, List.replicate]

/-- The failover loop never touches the `region` or `filter` fields of
the client: every branch either returns the state unchanged or updates
only `master_index` and `addr`. -/
theorem queryLoop_preserves_region_filter (start : Nat)
    (outcomes : List TryOutcome) :
    ∀ (m : Master) (fav : Nat) (m2 : Master) (fav2 : Nat) (tr : List Nat)
      (res : Except GoErr (List Nat)),
      queryLoop start m fav outcomes = some (m2, fav2, tr, res) →
      m2.region = m.region ∧ m2.filter = m.filter := by
  induction outcomes with
  | nil =>
    intro m fav m2 fav2 tr res h
    simp [queryLoop] at h
  | cons o rest ih =>
    intro m fav m2 fav2 tr res h
    cases o with
    | ok resp =>
      simp only [queryLoop, Option.some.injEq, Prod.mk.injEq] at h
      obtain ⟨h1, h2, h3, h4⟩ := h
      subst h1
      exact ⟨rfl, rfl⟩
    | err msg =>
      simp only [queryLoop, Option.some.injEq, Prod.mk.injEq] at h
      obtain ⟨h1, h2, h3, h4⟩ := h
      subst h1
      exact ⟨rfl, rfl⟩
    | timeout =>
      simp only [queryLoop] at h
      split at h
      · simp only [Option.some.injEq, Prod.mk.injEq] at h
        obtain ⟨h1, h2, h3, h4⟩ := h
        subst h1
        exact ⟨rfl, rfl⟩
      · split at h
        · exact absurd h (by simp)
        · rename_i m3 fav3 tr3 res3 heq
          simp only [Option.some.injEq, Prod.mk.injEq] at h
          obtain ⟨h1, h2, h3, h4⟩ := h
          subst h1
          obtain ⟨hr, hf⟩ := ih _ _ _ _ _ _ heq
          exact ⟨hr, hf⟩

/-- Claim C10: `Query` never modifies the client's region or filter
configuration — whatever the outcomes of the attempts (success, timeout
exhaustion, transport error, decode failure), the `region` and `filter`
fields after the call equal their values before it. -/
theorem c10_region_filter_frame (m0 : Master) (fav0 : Nat)
    (startIP : String) (outcomes : List TryOutcome) (run : QueryRun)
    (h : masterQuery m0 fav0 startIP outcomes = some run) :
    run.m.region = m0.region ∧ run.m.filter = m0.filter := by
  simp only [masterQuery] at h
  split at h
  · exact absurd h (by simp)
  · rename_i m1 fav1 tr e heq
    simp only [Option.some.injEq] at h
    subst h
    exact queryLoop_preserves_region_filter _ _ _ _ _ _ _ _ heq
  · rename_i m1 fav1 tr resp heq
    split at h <;>
      (simp only [Option.some.injEq] at h
       subst h
       exact queryLoop_preserves_region_filter _ _ _ _ _ _ _ _ heq)

/-- Claim C10, witness: a run with filter token `[7]` and region `5`
that exhausts failover keeps both values. -/
theorem c10_region_filter_frame_witness :
    (⟨⟨[7], "208.64.200.117:27011", 2, 5⟩, 1, [2, 3, 0, 1],
        (none, some GoErr.timeout)⟩ : QueryRun).m.region =
      (⟨[7], "208.64.200.117:27011", 2, 5⟩ : Master).region ∧
    (⟨⟨[7], "208.64.200.117:27011", 2, 5⟩, 1, [2, 3, 0, 1],
        (none, some GoErr.timeout)⟩ : QueryRun).m.filter =
      (⟨[7], "208.64.200.117:27011", 2, 5⟩ : Master).filter :=
  c10_region_filter_frame ⟨[7], "208.64.200.117:27011", 2, 5⟩ 2 "0.0.0.0:0"
    (List.replicate 4 TryOutcome.timeout)
    ⟨⟨[7], "208.64.200.117:27011", 2, 5⟩, 1, [2, 3, 0, 1],
      (none, some GoErr.timeout)⟩ (by decide)

/-- Claim C8: whenever `Query` ends with a non-nil error — timeout
after exhausted failover, a transport error, or a decode error — the
returned address list is nil; no partial list accompanies an error. -/
theorem c8_error_implies_nil_list (m0 : Master) (fav0 : Nat)
    (startIP : String) (outcomes : List TryOutcome) (run : QueryRun)
    (h : masterQuery m0 fav0 startIP outcomes = some run)
    (he : run.result.2 ≠ none) :
    run.result.1 = none := by
  simp only [masterQuery] at h
  split at h
  · exact absurd h (by simp)
  · simp only [Option.some.injEq] at h
    subst h
    rfl
  · split at h
    · simp only [Option.some.injEq] at h
      subst h
      rfl
    · simp only [Option.some.injEq] at h
      subst h
      exact absurd rfl he

/-- Claim C8, witness: a first-attempt socket error ends the call with
`(nil, netErr)`, and the list component is indeed nil. -/
theorem c8_error_implies_nil_list_witness :
    (⟨⟨[], "208.64.200.118:27011", 3, 1⟩, 2, [3],
        (none, some (GoErr.netErr "boom"))⟩ : QueryRun).result.1 = none :=
  c8_error_implies_nil_list ⟨[], "208.64.200.118:27011", 3, 1⟩ 2 "0.0.0.0:0"
    [TryOutcome.err "boom"]
    ⟨⟨[], "208.64.200.118:27011", 3, 1⟩, 2, [3],
      (none, some (GoErr.netErr "boom"))⟩ (by decide) (by decide)

/-- Claim C6, witness: from pool index 2, one timeout then a socket
error ends the call with that error, two attempts in total, and the
index still at the failing entry 3 — the pending outcomes are never
tried. -/
theorem c6_nontimeout_error_immediate_witness :
    (masterQuery ⟨[], "208.64.200.117:27011", 2, 1⟩ 2 "0.0.0.0:0"
        (List.replicate 1 TryOutcome.timeout ++
          TryOutcome.err "write: connection refused" ::
            [TryOutcome.ok masterResponseHeader])).map
      (fun r => (r.result, r.trace.length, r.m.master_index)) =
      some ((none, some (GoErr.netErr "write: connection refused")), 2, 3) :=
  c6_nontimeout_error_immediate ⟨[], "208.64.200.117:27011", 2, 1⟩ 2
    "0.0.0.0:0" "write: connection refused" 1
    [TryOutcome.ok masterResponseHeader] (by decide) (by decide)

end Goseq
